import Mathlib

/-!
Verification of the Iterated Prisoner's Dilemma simulation engine and its
React frontend (sn_playground).  The repository ships the frontend
(frontend/src/Controls.tsx) and documentation; the Python backend
(environment.py, agents.py, engine, api) is described by the specification
and the README only, so its definitions below are modelled from the spec.
-/

namespace PD

/-- Modelled from the spec: the per-round choice of a participant
(backend environment.py Action enum is not in the sources).  Exactly the
two values Cooperate and Defect are permitted. -/
inductive Action where
  | cooperate
  | defect
  deriving DecidableEq, Repr

/-- Modelled from the spec: the payoff matrix record with the four numeric
fields T (temptation), R (reward), P (punishment), S (sucker)
(backend environment.py PayoffMatrix is not in the sources). -/
structure PayoffMatrix where
  T : Int
  R : Int
  P : Int
  S : Int
  deriving DecidableEq, Repr

/-- The classic Prisoner's Dilemma ordering constraints stated in
src/README.md line 52: T > R > P > S and 2R > T + S. -/
def validMatrix (m : PayoffMatrix) : Prop :=
  m.T > m.R ∧ m.R > m.P ∧ m.P > m.S ∧ 2 * m.R > m.T + m.S

instance (m : PayoffMatrix) : Decidable (validMatrix m) := by
  unfold validMatrix; infer_instance

/-- Modelled from the spec: the error raised by matrix construction when
the ordering constraints are violated. -/
inductive EnvError where
  | invalidMatrix
  deriving DecidableEq, Repr

/-- Modelled from the spec: construct(T, R, P, S) fails with InvalidMatrix
if the ordering invariant (T > R > P > S and 2R > T + S) is violated
(backend environment.py is not in the sources; the constraint text is
src/README.md line 52). -/
def construct (T R P S : Int) : Except EnvError PayoffMatrix :=
  if T > R ∧ R > P ∧ P > S ∧ 2 * R > T + S then
    Except.ok { T := T, R := R, P := P, S := S }
  else
    Except.error EnvError.invalidMatrix

/-- Modelled from the spec: the default payoff values T=5, R=3, P=1, S=0
(src/README.md lines 48-51 and the spec's construct defaults). -/
def defaultMatrix : PayoffMatrix := { T := 5, R := 3, P := 1, S := 0 }

/-- Modelled from the spec: payoff(actionA, actionB) = (payoffA, payoffB);
both Cooperate gives (R, R), both Defect gives (P, P), the defector of a
mixed pair gets T and the cooperator S (src/README.md lines 48-51,
frontend payoff list Controls.tsx lines 156-161). -/
def payoff (m : PayoffMatrix) (a b : Action) : Int × Int :=
  match a, b with
  | Action.cooperate, Action.cooperate => (m.R, m.R)
  | Action.defect, Action.defect => (m.P, m.P)
  | Action.defect, Action.cooperate => (m.T, m.S)
  | Action.cooperate, Action.defect => (m.S, m.T)

/-- Modelled from the spec: AlwaysCooperateAgent (backend agents.py is not
in the sources; src/README.md line 56).  A strategy is its decide
function from the human-action history, oldest round first, to the
opponent's next action. -/
def alwaysCooperate (_ : List Action) : Action := Action.cooperate

/-- Modelled from the spec: AlwaysDefectAgent (src/README.md line 57). -/
def alwaysDefect (_ : List Action) : Action := Action.defect

/-- Modelled from the spec: TitForTatAgent cooperates on the first
decision and thereafter mirrors the human's action from the immediately
preceding round (src/README.md line 55). -/
def titForTat (humanHistory : List Action) : Action :=
  match humanHistory.getLast? with
  | none => Action.cooperate
  | some a => a

/-- Modelled from the spec: the immutable record of one completed round;
field names follow the export record of spec section 6 (round index,
human action, opponent action, human payoff, opponent payoff). -/
structure RoundResult where
  round : Nat
  humanAction : Action
  opponentAction : Action
  humanPayoff : Int
  opponentPayoff : Int
  deriving DecidableEq, Repr

/-- Modelled from the spec: the typed failures of the session engine that
the embedded operations can raise (spec section 7). -/
inductive SessionError where
  | invalidConfig
  | unknownStrategy
  | sessionTerminated
  deriving DecidableEq, Repr

/-- Modelled from the spec: the mutable session aggregate of spec section
3 (backend engine/state.py is not in the sources): identifier, configured
round count, current round index, cumulative scores, the strategy's
decide function, the opponent's pending action, the ordered history and
the terminal flag. -/
structure GameSession where
  session_id : String
  total_rounds : Nat
  current_round : Nat
  human_score : Int
  opponent_score : Int
  strategy : List Action → Action
  pending : Option Action
  history : List RoundResult
  terminal : Bool

/-- The human actions of the rounds completed so far, oldest first. -/
def humanActions (s : GameSession) : List Action :=
  s.history.map RoundResult.humanAction

/-- Modelled from the spec: start(totalRounds, strategyName) after the
strategy is resolved — validates totalRounds >= 1 (else InvalidConfig),
starts at round 0 with empty history, zero scores, terminal false, and
the opponent's round-0 move pre-computed on the empty history
(spec section 4.3). -/
def startSession (sid : String) (totalRounds : Nat)
    (strat : List Action → Action) : Except SessionError GameSession :=
  if totalRounds ≥ 1 then
    Except.ok
      { session_id := sid
        total_rounds := totalRounds
        current_round := 0
        human_score := 0
        opponent_score := 0
        strategy := strat
        pending := some (strat [])
        history := []
        terminal := false }
  else
    Except.error SessionError.invalidConfig

/-- Modelled from the spec: step(session, humanAction) — fails with
SessionTerminated when already terminal; otherwise scores the round
against the pending opponent action, appends the RoundResult, adds the
payoffs to the cumulative scores, increments the round, and either marks
terminal (clearing the pending move) or pre-computes the next pending
move from the full updated human-action history (spec section 4.3).
In every reachable non-terminal session the pending move is set, so the
getD default is never consulted (proved in sessionInv below). -/
def step (m : PayoffMatrix) (s : GameSession) (humanAction : Action) :
    Except SessionError GameSession :=
  if s.terminal then
    Except.error SessionError.sessionTerminated
  else
    let opp := s.pending.getD Action.cooperate
    let pays := payoff m humanAction opp
    let rr : RoundResult :=
      { round := s.current_round
        humanAction := humanAction
        opponentAction := opp
        humanPayoff := pays.1
        opponentPayoff := pays.2 }
    let newHistory := s.history ++ [rr]
    let newRound := s.current_round + 1
    if newRound = s.total_rounds then
      Except.ok
        { s with
          current_round := newRound
          human_score := s.human_score + pays.1
          opponent_score := s.opponent_score + pays.2
          history := newHistory
          pending := none
          terminal := true }
    else
      Except.ok
        { s with
          current_round := newRound
          human_score := s.human_score + pays.1
          opponent_score := s.opponent_score + pays.2
          history := newHistory
          pending := some (s.strategy (newHistory.map RoundResult.humanAction))
          terminal := false }

/-- A sequence of step calls, all of which must be accepted. -/
def runSteps (m : PayoffMatrix) (s : GameSession) :
    List Action → Except SessionError GameSession
  | [] => Except.ok s
  | a :: rest =>
    match step m s a with
    | Except.ok s' => runSteps m s' rest
    | Except.error e => Except.error e

/-- Modelled from the spec: resolving a strategy name to its decide
function; an unrecognized name fails with UnknownStrategy (spec section
4.2).  The Random strategy's seeded source of randomness is injected as
the function rnd. -/
def resolveStrategy (rnd : List Action → Action) (name : String) :
    Except SessionError (List Action → Action) :=
  if name = "always_cooperate" then Except.ok alwaysCooperate
  else if name = "always_defect" then Except.ok alwaysDefect
  else if name = "tit_for_tat" then Except.ok titForTat
  else if name = "random" then Except.ok rnd
  else Except.error SessionError.unknownStrategy

/-- Modelled from the spec: the full start operation — resolve the
strategy by name, then create the session (spec sections 4.3 and 6). -/
def start (rnd : List Action → Action) (sid : String) (numRounds : Nat)
    (strategyName : String) : Except SessionError GameSession :=
  match resolveStrategy rnd strategyName with
  | Except.ok strat => startSession sid numRounds strat
  | Except.error e => Except.error e

/-- Modelled from the spec: the session snapshot shape returned by the
start and step operations across the engine boundary (spec section 6). -/
structure Snapshot where
  sessionId : String
  currentRound : Nat
  totalRounds : Nat
  humanScore : Int
  opponentScore : Int
  pendingOpponentAction : Option Action
  history : List RoundResult
  terminal : Bool
  strategyName : String
  payoffLabels : PayoffMatrix

/-- Modelled from the spec: projecting a session to the snapshot sent to
the frontend (spec section 6). -/
def snapshot (m : PayoffMatrix) (strategyName : String) (s : GameSession) :
    Snapshot :=
  { sessionId := s.session_id
    currentRound := s.current_round
    totalRounds := s.total_rounds
    humanScore := s.human_score
    opponentScore := s.opponent_score
    pendingOpponentAction := s.pending
    history := s.history
    terminal := s.terminal
    strategyName := strategyName
    payoffLabels := m }

/-- The session invariant of spec section 3: the round index is bounded
by the configured total, the history length and its round indices track
the current round, the cumulative scores are the sums of the per-round
payoffs, the terminal flag holds exactly at the configured total, and
the pending opponent move is set (to the strategy's decision on the
human history) exactly while the session is live. -/
def sessionInv (s : GameSession) : Prop :=
  s.current_round ≤ s.total_rounds ∧
  s.history.length = s.current_round ∧
  s.human_score = (s.history.map RoundResult.humanPayoff).sum ∧
  s.opponent_score = (s.history.map RoundResult.opponentPayoff).sum ∧
  s.history.map RoundResult.round = List.range s.current_round ∧
  (s.terminal = true ↔ s.current_round = s.total_rounds) ∧
  (s.terminal = false → s.pending = some (s.strategy (humanActions s))) ∧
  (s.terminal = true → s.pending = none)

end PD

namespace Frontend

/-- The RoundResult interface of frontend/src/Controls.tsx lines 6-12. -/
structure RoundResult where
  round_number : Nat
  agent_action : PD.Action
  human_action : PD.Action
  agent_payoff : Int
  human_payoff : Int
  deriving DecidableEq, Repr

/-- The PayoffMatrix interface of frontend/src/Controls.tsx lines 14-21:
a labels record with the four values T, R, P, S. -/
structure PayoffMatrix where
  labels : PD.PayoffMatrix
  deriving DecidableEq, Repr

/-- The GameState interface of frontend/src/Controls.tsx lines 23-36. -/
structure GameState where
  session_id : String
  current_round : Nat
  total_rounds : Nat
  agent_score : Int
  human_score : Int
  agent_action : Option PD.Action
  waiting_for_human : Bool
  history : List RoundResult
  game_over : Bool
  agent_name : String
  agent_strategy : String
  payoff_matrix : PayoffMatrix
  deriving DecidableEq, Repr

/-- The body of the POST /simulation/step request built by makeChoice
(Controls.tsx lines 80-87). -/
structure StepRequest where
  session_id : String
  action : PD.Action
  deriving DecidableEq, Repr

/-- The request-issuing decision of makeChoice (Controls.tsx lines
75-96): with no session state or with game_over set it returns
immediately and issues nothing; otherwise it issues one step request
carrying the stored session id and the chosen action. -/
def makeChoiceRequest (state : Option GameState) (action : PD.Action) :
    Option StepRequest :=
  match state with
  | none => none
  | some st =>
    if st.game_over then none
    else some { session_id := st.session_id, action := action }

/-- The min attribute of the numRounds input (Controls.tsx line 120). -/
def numRoundsInputMin : Nat := 1

/-- The max attribute of the numRounds input (Controls.tsx line 121). -/
def numRoundsInputMax : Nat := 100

/-- The onChange handler of the numRounds input (Controls.tsx lines
116-119): parseInt(e.target.value) || 10, with the parseInt outcome
modelled as none for NaN.  NaN and 0 are the falsy results, so both fall
back to the default 10; every other parsed integer is kept as is. -/
def numRoundsOnChange (parsed : Option Int) : Int :=
  match parsed with
  | none => 10
  | some n => if n = 0 then 10 else n

/-- A concrete in-game state used to instantiate the frontend theorems
on explicit inputs. -/
def demoState : GameState :=
  { session_id := "fs1"
    current_round := 0
    total_rounds := 3
    agent_score := 0
    human_score := 0
    agent_action := some PD.Action.cooperate
    waiting_for_human := true
    history := []
    game_over := false
    agent_name := "Tit-for-Tat"
    agent_strategy := "tit_for_tat"
    payoff_matrix := { labels := PD.defaultMatrix } }

/-- The same concrete state after the game has ended. -/
def demoOverState : GameState := { demoState with game_over := true }

end Frontend

namespace PD

/-- A concrete two-round always-defect session right after start, used
to instantiate the session theorems on explicit inputs. -/
def wStart2 : GameSession :=
  { session_id := "w2"
    total_rounds := 2
    current_round := 0
    human_score := 0
    opponent_score := 0
    strategy := alwaysDefect
    pending := some Action.defect
    history := []
    terminal := false }

/-- The session wStart2 after one accepted cooperate step. -/
def wMid2 : GameSession :=
  { session_id := "w2"
    total_rounds := 2
    current_round := 1
    human_score := 0
    opponent_score := 5
    strategy := alwaysDefect
    pending := some Action.defect
    history := [{ round := 0, humanAction := Action.cooperate,
                  opponentAction := Action.defect,
                  humanPayoff := 0, opponentPayoff := 5 }]
    terminal := false }

/-- A concrete one-round always-cooperate session right after start. -/
def wStart1 : GameSession :=
  { session_id := "w3"
    total_rounds := 1
    current_round := 0
    human_score := 0
    opponent_score := 0
    strategy := alwaysCooperate
    pending := some Action.cooperate
    history := []
    terminal := false }

/-- The session wStart1 after its single accepted defect step, now
terminal. -/
def wEnd1 : GameSession :=
  { session_id := "w3"
    total_rounds := 1
    current_round := 1
    human_score := 5
    opponent_score := 0
    strategy := alwaysCooperate
    pending := none
    history := [{ round := 0, humanAction := Action.defect,
                  opponentAction := Action.cooperate,
                  humanPayoff := 5, opponentPayoff := 0 }]
    terminal := true }

/-- A concrete one-round tit-for-tat session right after start. -/
def wTft : GameSession :=
  { session_id := "w8"
    total_rounds := 1
    current_round := 0
    human_score := 0
    opponent_score := 0
    strategy := titForTat
    pending := some Action.cooperate
    history := []
    terminal := false }

/-- A concrete one-round always-defect session right after start. -/
def wAd : GameSession :=
  { session_id := "w8b"
    total_rounds := 1
    current_round := 0
    human_score := 0
    opponent_score := 0
    strategy := alwaysDefect
    pending := some Action.defect
    history := []
    terminal := false }

/-- The session wAd after its single accepted defect step, now
terminal. -/
def wAdEnd : GameSession :=
  { session_id := "w8b"
    total_rounds := 1
    current_round := 1
    human_score := 1
    opponent_score := 1
    strategy := alwaysDefect
    pending := none
    history := [{ round := 0, humanAction := Action.defect,
                  opponentAction := Action.defect,
                  humanPayoff := 1, opponentPayoff := 1 }]
    terminal := true }

end PD

namespace PD

theorem sessionInv_start {sid : String} {n : Nat}
    {strat : List Action → Action} {s : GameSession}
    (h : startSession sid n strat = Except.ok s) : sessionInv s := by
  unfold startSession at h
  split at h
  · cases h
    rename_i hn
    refine ⟨Nat.zero_le n, rfl, rfl, rfl, rfl, ?_, ?_, ?_⟩
    · simp only [Bool.false_eq_true, false_iff]
      omega
    · intro _; rfl
    · intro hcontra; cases hcontra
  · cases h

theorem sessionInv_step {m : PayoffMatrix} {s : GameSession} {a : Action}
    {s' : GameSession} (hInv : sessionInv s)
    (h : step m s a = Except.ok s') :
    sessionInv s' ∧ s'.current_round = s.current_round + 1 ∧
      s'.total_rounds = s.total_rounds ∧ s'.strategy = s.strategy := by
  obtain ⟨hle, hlen, hhs, hos, hround, hterm, hpendF, hpendT⟩ := hInv
  unfold step at h
  by_cases ht : s.terminal = true
  · rw [if_pos ht] at h
    cases h
  · rw [if_neg ht] at h
    dsimp only [] at h
    split at h
    · cases h
      rename_i heq
      refine ⟨⟨?_, ?_, ?_, ?_, ?_, ?_, ?_, ?_⟩, rfl, rfl, rfl⟩
      · simp [heq]
      · simp [hlen]
      · simp [hhs]
      · simp [hos]
      · simp [hround, ← List.range_succ]
      · simpa using heq
      · intro hcontra; cases hcontra
      · intro _; rfl
    · cases h
      rename_i hne
      have hcur : s.current_round ≠ s.total_rounds := by
        intro hc
        exact ht (hterm.mpr hc)
      refine ⟨⟨?_, ?_, ?_, ?_, ?_, ?_, ?_, ?_⟩, rfl, rfl, rfl⟩
      · dsimp only
        omega
      · simp [hlen]
      · simp [hhs]
      · simp [hos]
      · simp [hround, ← List.range_succ]
      · simp only [Bool.false_eq_true, false_iff]
        exact hne
      · intro _
        simp [humanActions]
      · intro hcontra; cases hcontra

theorem sessionInv_run {m : PayoffMatrix} {acts : List Action}
    {s s' : GameSession} (hInv : sessionInv s)
    (h : runSteps m s acts = Except.ok s') :
    sessionInv s' ∧ s'.current_round = s.current_round + acts.length ∧
      s'.total_rounds = s.total_rounds := by
  induction acts generalizing s with
  | nil =>
    cases h
    exact ⟨hInv, rfl, rfl⟩
  | cons a rest ih =>
    unfold runSteps at h
    split at h
    · rename_i smid hstep
      obtain ⟨hInvMid, hr, htot, _⟩ := sessionInv_step hInv hstep
      obtain ⟨hInv', hr', htot'⟩ := ih hInvMid h
      refine ⟨hInv', ?_, htot'.trans htot⟩
      rw [hr', hr]
      simp [Nat.add_assoc, Nat.add_comm 1 rest.length]
    · cases h

end PD

namespace PD

/-- C1: for every payoff matrix satisfying the ordering constraints,
payoff is a total function on the four action pairs returning (R, R)
when both cooperate, (P, P) when both defect, and (T, S) / (S, T)
oriented to the defector in the mixed pairs; the default matrix used
when values are unspecified is T=5, R=3, P=1, S=0. -/
theorem payoff_matrix_mapping :
    (∀ m : PayoffMatrix, validMatrix m →
      payoff m Action.cooperate Action.cooperate = (m.R, m.R) ∧
      payoff m Action.defect Action.defect = (m.P, m.P) ∧
      payoff m Action.defect Action.cooperate = (m.T, m.S) ∧
      payoff m Action.cooperate Action.defect = (m.S, m.T)) ∧
    defaultMatrix = { T := 5, R := 3, P := 1, S := 0 } :=
  ⟨fun _ _ => ⟨rfl, rfl, rfl, rfl⟩, rfl⟩

/-- Witness for C1 at the default matrix. -/
theorem payoff_matrix_mapping_witness :
    validMatrix defaultMatrix ∧
    payoff defaultMatrix Action.defect Action.cooperate = (5, 0) :=
  ⟨by decide, (payoff_matrix_mapping.1 defaultMatrix (by decide)).2.2.1⟩

/-- C5: construct(T, R, P, S) fails with InvalidMatrix exactly when the
ordering invariant T > R > P > S and 2R > T + S is violated; a
successful construction returns the matrix with exactly the given four
fields, satisfying the invariant (the model is purely functional, so a
constructed matrix is never mutated afterwards). -/
theorem construct_invalid_iff :
    (∀ T R P S : Int,
      construct T R P S = Except.error EnvError.invalidMatrix ↔
        ¬(T > R ∧ R > P ∧ P > S ∧ 2 * R > T + S)) ∧
    (∀ (T R P S : Int) (mtx : PayoffMatrix),
      construct T R P S = Except.ok mtx →
        mtx = { T := T, R := R, P := P, S := S } ∧ validMatrix mtx) := by
  constructor
  · intro T R P S
    unfold construct
    split
    · rename_i hvalid
      simp [hvalid]
    · rename_i hnv
      simp [hnv]
  · intro T R P S mtx h
    unfold construct at h
    split at h
    · cases h
      rename_i hvalid
      exact ⟨rfl, hvalid⟩
    · cases h

/-- Witness for C5 at the classic values. -/
theorem construct_invalid_iff_witness :
    construct 5 3 1 0 = Except.ok { T := 5, R := 3, P := 1, S := 0 } ∧
    ({ T := 5, R := 3, P := 1, S := 0 } : PayoffMatrix) =
      { T := 5, R := 3, P := 1, S := 0 } ∧
    validMatrix { T := 5, R := 3, P := 1, S := 0 } :=
  ⟨rfl, construct_invalid_iff.2 5 3 1 0 { T := 5, R := 3, P := 1, S := 0 } rfl⟩

/-- C6 counterexample: construction with T=5, R=4, P=1, S=0 does not
fail with InvalidMatrix — it succeeds, because both constraint clauses
hold there: 5 > 4 > 1 > 0 and 2R = 8 > T + S = 5 (the claim's
arithmetic 2R = 8 < T + S = 5 is false). -/
theorem construct_R4_counterexample :
    construct 5 4 1 0 = Except.ok { T := 5, R := 4, P := 1, S := 0 } ∧
    construct 5 4 1 0 ≠ Except.error EnvError.invalidMatrix ∧
    2 * (4 : Int) > 5 + 0 := by
  refine ⟨rfl, ?_, by decide⟩
  intro hcontra
  rw [show construct 5 4 1 0 =
        Except.ok { T := 5, R := 4, P := 1, S := 0 } from rfl] at hcontra
  cases hcontra

/-- C6 amended: construction with (T=5, R=3, P=1, S=0) succeeds, and
construction with R=4, T=5, P=1, S=0 also succeeds, because 2R = 8 >
T + S = 5 and 5 > 4 > 1 > 0. -/
theorem construct_examples_amended :
    construct 5 3 1 0 = Except.ok { T := 5, R := 3, P := 1, S := 0 } ∧
    construct 5 4 1 0 = Except.ok { T := 5, R := 4, P := 1, S := 0 } :=
  ⟨rfl, rfl⟩

end PD

namespace PD

/-- C4: the TitForTat strategy cooperates on its first decision (empty
history) and each later decision equals the human's action of the
immediately preceding round; in a session the human sequence
[Defect, Cooperate, Defect] yields the opponent sequence
[Cooperate, Defect, Cooperate]. -/
theorem titForTat_mirrors :
    titForTat [] = Action.cooperate ∧
    (∀ (hist : List Action) (a : Action), titForTat (hist ++ [a]) = a) ∧
    ((startSession "c4" 3 titForTat).bind
        (fun s0 => runSteps defaultMatrix s0
          [Action.defect, Action.cooperate, Action.defect])).map
      (fun s => s.history.map RoundResult.opponentAction) =
      Except.ok [Action.cooperate, Action.defect, Action.cooperate] := by
  refine ⟨rfl, ?_, rfl⟩
  intro hist a
  simp [titForTat]

/-- C7: starting a three-round game against always_defect and playing
Cooperate three times ends with humanScore 0, opponentScore 15, the
terminal flag set, and a history of three rounds each recording human
payoff 0 and opponent payoff 5, whatever decide function is injected
for the Random strategy. -/
theorem alwaysDefect_end_to_end :
    ∀ rnd : List Action → Action,
      ((start rnd "c7" 3 "always_defect").bind
          (fun s0 => runSteps defaultMatrix s0
            [Action.cooperate, Action.cooperate, Action.cooperate])).map
        (fun s => (s.human_score, s.opponent_score, s.terminal,
          s.history.map (fun r => (r.humanPayoff, r.opponentPayoff)))) =
        Except.ok (0, 15, true, [(0, 5), (0, 5), (0, 5)]) := by
  intro rnd
  rfl

end PD

namespace PD

/-- C2: any session produced by start followed by k accepted step calls
has current_round bounded by total_rounds, a history of length k equal
to current_round, scores equal to the sums of the corresponding payoff
fields over the history, round indices exactly 0..k-1 in order, and the
terminal flag set exactly when current_round equals total_rounds. -/
theorem session_invariants {m : PayoffMatrix} {sid : String} {n : Nat}
    {strat : List Action → Action} {acts : List Action}
    {s0 s : GameSession}
    (h0 : startSession sid n strat = Except.ok s0)
    (h : runSteps m s0 acts = Except.ok s) :
    s.current_round ≤ s.total_rounds ∧
    s.history.length = acts.length ∧
    s.current_round = acts.length ∧
    s.human_score = (s.history.map RoundResult.humanPayoff).sum ∧
    s.opponent_score = (s.history.map RoundResult.opponentPayoff).sum ∧
    s.history.map RoundResult.round = List.range acts.length ∧
    (s.terminal = true ↔ s.current_round = s.total_rounds) := by
  obtain ⟨hInv, hr, _⟩ := sessionInv_run (sessionInv_start h0) h
  obtain ⟨hle, hlen, hhs, hos, hround, hterm, _, _⟩ := hInv
  have hr0 : s0.current_round = 0 := by
    unfold startSession at h0
    split at h0
    · cases h0; rfl
    · cases h0
  have hcur : s.current_round = acts.length := by omega
  refine ⟨hle, by omega, hcur, hhs, hos, ?_, hterm⟩
  rw [← hcur]
  exact hround

/-- Witness for C2: a two-round always-defect session after one accepted
cooperate step. -/
theorem session_invariants_witness :
    (startSession "w2" 2 alwaysDefect = Except.ok wStart2) ∧
    (runSteps defaultMatrix wStart2 [Action.cooperate] =
      Except.ok wMid2) ∧
    (wMid2.current_round ≤ wMid2.total_rounds ∧
      wMid2.history.length = 1 ∧
      wMid2.current_round = 1 ∧
      wMid2.human_score = (wMid2.history.map RoundResult.humanPayoff).sum ∧
      wMid2.opponent_score =
        (wMid2.history.map RoundResult.opponentPayoff).sum ∧
      wMid2.history.map RoundResult.round = List.range 1 ∧
      (wMid2.terminal = true ↔
        wMid2.current_round = wMid2.total_rounds)) :=
  ⟨rfl, rfl,
    @session_invariants defaultMatrix "w2" 2 alwaysDefect
      [Action.cooperate] wStart2 wMid2 rfl rfl⟩

/-- C3: a session configured with total round count N accepts at most N
step calls, its terminal flag is set exactly after the N-th accepted
step, and once terminal every further step call fails with
SessionTerminated (the step function returns only the error, producing
no new session state). -/
theorem session_termination {m : PayoffMatrix} {sid : String} {N : Nat}
    {strat : List Action → Action} {acts : List Action}
    {s0 s : GameSession}
    (h0 : startSession sid N strat = Except.ok s0)
    (h : runSteps m s0 acts = Except.ok s) :
    acts.length ≤ N ∧
    (s.terminal = true ↔ acts.length = N) ∧
    (s.terminal = true →
      ∀ a, step m s a = Except.error SessionError.sessionTerminated) := by
  obtain ⟨hInv, hr, htot⟩ := sessionInv_run (sessionInv_start h0) h
  obtain ⟨hle, _, _, _, _, hterm, _, _⟩ := hInv
  have hstart : s0.current_round = 0 ∧ s0.total_rounds = N := by
    unfold startSession at h0
    split at h0
    · cases h0; exact ⟨rfl, rfl⟩
    · cases h0
  refine ⟨by omega, ?_, ?_⟩
  · rw [hterm]
    omega
  · intro ht a
    unfold step
    rw [if_pos ht]

/-- Witness for C3: a one-round always-cooperate session driven to the
terminal state by a single defect step. -/
theorem session_termination_witness :
    (startSession "w3" 1 alwaysCooperate = Except.ok wStart1) ∧
    (runSteps defaultMatrix wStart1 [Action.defect] = Except.ok wEnd1) ∧
    (1 ≤ 1 ∧
      (wEnd1.terminal = true ↔ 1 = 1) ∧
      (wEnd1.terminal = true → ∀ a,
        step defaultMatrix wEnd1 a =
          Except.error SessionError.sessionTerminated)) :=
  ⟨rfl, rfl,
    @session_termination defaultMatrix "w3" 1 alwaysCooperate
      [Action.defect] wStart1 wEnd1 rfl rfl⟩

end PD

namespace PD

/-- C8: the action vocabulary is exactly cooperate and defect; a
successful start call requires a positive round count and one of the
four documented strategy names, and its snapshot has the start shape —
round 0, zero scores, empty history, terminal false, the pre-computed
pending opponent action, the strategy name and the payoff labels; and
every session reached by accepted steps whose terminal flag is set
snapshots with a cleared (null) pending opponent action. -/
theorem interface_shapes :
    (∀ a : Action, a = Action.cooperate ∨ a = Action.defect) ∧
    (∀ (rnd : List Action → Action) (m : PayoffMatrix) (sid : String)
        (n : Nat) (name : String) (s : GameSession),
      start rnd sid n name = Except.ok s →
        1 ≤ n ∧
        (name = "always_cooperate" ∨ name = "always_defect" ∨
          name = "tit_for_tat" ∨ name = "random") ∧
        snapshot m name s =
          { sessionId := sid
            currentRound := 0
            totalRounds := n
            humanScore := 0
            opponentScore := 0
            pendingOpponentAction := some (s.strategy [])
            history := []
            terminal := false
            strategyName := name
            payoffLabels := m }) ∧
    (∀ (m : PayoffMatrix) (name : String) (sid : String) (n : Nat)
        (strat : List Action → Action) (acts : List Action)
        (s0 s : GameSession),
      startSession sid n strat = Except.ok s0 →
      runSteps m s0 acts = Except.ok s →
      s.terminal = true →
      (snapshot m name s).pendingOpponentAction = none) := by
  refine ⟨?_, ?_, ?_⟩
  · intro a
    cases a
    · exact Or.inl rfl
    · exact Or.inr rfl
  · intro rnd m sid n name s h
    unfold start at h
    split at h
    · rename_i strat hres
      have hname : name = "always_cooperate" ∨ name = "always_defect" ∨
          name = "tit_for_tat" ∨ name = "random" := by
        unfold resolveStrategy at hres
        split at hres
        · rename_i hn; exact Or.inl hn
        · split at hres
          · rename_i hn; exact Or.inr (Or.inl hn)
          · split at hres
            · rename_i hn; exact Or.inr (Or.inr (Or.inl hn))
            · split at hres
              · rename_i hn; exact Or.inr (Or.inr (Or.inr hn))
              · cases hres
      unfold startSession at h
      split at h
      · rename_i hn1
        cases h
        exact ⟨hn1, hname, rfl⟩
      · cases h
    · cases h
  · intro m name sid n strat acts s0 s h0 h ht
    obtain ⟨hInv, _, _⟩ := sessionInv_run (sessionInv_start h0) h
    obtain ⟨_, _, _, _, _, _, _, hpendT⟩ := hInv
    exact hpendT ht

/-- Witness for C8: a tit-for-tat start call and a terminal
always-defect session. -/
theorem interface_shapes_witness :
    (start alwaysCooperate "w8" 1 "tit_for_tat" = Except.ok wTft) ∧
    (1 ≤ 1 ∧
      ("tit_for_tat" = "always_cooperate" ∨
        "tit_for_tat" = "always_defect" ∨
        "tit_for_tat" = "tit_for_tat" ∨ "tit_for_tat" = "random") ∧
      snapshot defaultMatrix "tit_for_tat" wTft =
        { sessionId := "w8"
          currentRound := 0
          totalRounds := 1
          humanScore := 0
          opponentScore := 0
          pendingOpponentAction := some Action.cooperate
          history := []
          terminal := false
          strategyName := "tit_for_tat"
          payoffLabels := defaultMatrix }) ∧
    (startSession "w8b" 1 alwaysDefect = Except.ok wAd) ∧
    (runSteps defaultMatrix wAd [Action.defect] = Except.ok wAdEnd) ∧
    (snapshot defaultMatrix "always_defect" wAdEnd).pendingOpponentAction =
      none :=
  ⟨rfl,
    interface_shapes.2.1 alwaysCooperate defaultMatrix "w8" 1
      "tit_for_tat" wTft rfl,
    rfl, rfl,
    interface_shapes.2.2 defaultMatrix "always_defect" "w8b" 1
      alwaysDefect [Action.defect] wAd wAdEnd rfl rfl rfl⟩

end PD

namespace Frontend

/-- C9: makeChoice issues a step request exactly when a session state
exists and its game_over flag is false; with no state or a finished
game it issues nothing, and an issued request carries the stored
session id and the chosen action. -/
theorem makeChoice_guard :
    (∀ a : PD.Action, makeChoiceRequest none a = none) ∧
    (∀ (st : GameState) (a : PD.Action), st.game_over = true →
      makeChoiceRequest (some st) a = none) ∧
    (∀ (st : GameState) (a : PD.Action), st.game_over = false →
      makeChoiceRequest (some st) a =
        some { session_id := st.session_id, action := a }) := by
  refine ⟨fun _ => rfl, ?_, ?_⟩
  · intro st a hgo
    simp [makeChoiceRequest, hgo]
  · intro st a hgo
    simp [makeChoiceRequest, hgo]

/-- Witness for C9 on a concrete live state and its game-over variant. -/
theorem makeChoice_guard_witness :
    demoOverState.game_over = true ∧
    makeChoiceRequest (some demoOverState) PD.Action.defect = none ∧
    demoState.game_over = false ∧
    makeChoiceRequest (some demoState) PD.Action.defect =
      some { session_id := "fs1", action := PD.Action.defect } :=
  ⟨rfl, makeChoice_guard.2.1 demoOverState PD.Action.defect rfl,
    rfl, makeChoice_guard.2.2 demoState PD.Action.defect rfl⟩

/-- C10: the round-count input declares the bounds 1 and 100 through its
min and max attributes, and its change handler replaces a value parsing
to NaN or 0 by the default 10 while keeping every other parsed
integer. -/
theorem numRounds_input_bounds :
    numRoundsInputMin = 1 ∧
    numRoundsInputMax = 100 ∧
    numRoundsOnChange none = 10 ∧
    numRoundsOnChange (some 0) = 10 ∧
    (∀ n : Int, n ≠ 0 → numRoundsOnChange (some n) = n) := by
  refine ⟨rfl, rfl, rfl, rfl, fun n hn => ?_⟩
  simp [numRoundsOnChange, hn]

/-- Witness for C10 at the parsed value 7. -/
theorem numRounds_input_bounds_witness :
    (7 : Int) ≠ 0 ∧ numRoundsOnChange (some 7) = 7 :=
  ⟨by decide, numRounds_input_bounds.2.2.2.2 7 (by decide)⟩

end Frontend
